import Mathlib

/-!
Verification development for `chapterize.py`, a single-script pipeline that
derives chapter markers for a media file (from source metadata or from an
asynchronous transcription service) and serializes them to an ffmetadata
file.  The script's effects are shallowly embedded: the filesystem is an
association list from path to file content, external collaborators
(transcription service, ffmpeg) are oracles passed in explicitly, and
`sys.exit(n)` is `Except.error n`.
-/

namespace Chapterize

/-- The filesystem: an association list from path to textual content.
Writing conses a fresh entry (lookup returns the newest entry, which models
opening a file in write mode truncating the old content); removing drops
every entry for the path. -/
def FS : Type := List (String × String)

def fsLookup : FS → String → Option String
  | [], _ => none
  | (q, c) :: rest, p => if q = p then some c else fsLookup rest p

def fsWrite (fs : FS) (p c : String) : FS := (p, c) :: fs

def fsRemove : FS → String → FS
  | [], _ => []
  | (q, c) :: rest, p => if q = p then fsRemove rest p else (q, c) :: fsRemove rest p

/-- Model of `os.path.exists`. -/
def fsExists (fs : FS) (p : String) : Bool := (fsLookup fs p).isSome

/-- First character is the path separator (model of Python's
`b.startswith(sep)` inside `posixpath.join`). -/
def startsSlash (s : String) : Bool := s.data.head? == some '/'

/-- Last character is the path separator. -/
def endsSlash (s : String) : Bool := s.data.getLast? == some '/'

/-- Model of `os.path.join` for two components (posixpath semantics). -/
def pathJoin (a b : String) : String :=
  if startsSlash b then b
  else if a = "" then b
  else if endsSlash a then a ++ b
  else a ++ "/" ++ b

/-- Model of `os.path.basename`: the part of the path after the last slash. -/
def basename (p : String) : String :=
  ⟨(p.data.reverse.takeWhile (· ≠ '/')).reverse⟩

/-- Model of `os.path.splitext(s)[0]` for a string without a slash: drop the
extension beginning at the last dot, provided some character strictly before
that dot is not itself a dot (posixpath's leading-dot rule). -/
def splitextStem (s : String) : String :=
  match s.data.reverse.dropWhile (· ≠ '.') with
  | [] => s
  | _ :: pre => if pre.any (· ≠ '.') then ⟨pre.reverse⟩ else s

/-- Model of `os.path.splitext(s)[1]`: the extension (with the dot), under
the same rule as `splitextStem`. -/
def splitextExt (s : String) : String :=
  match s.data.reverse.dropWhile (· ≠ '.') with
  | [] => ""
  | dot :: pre =>
    if pre.any (· ≠ '.') then ⟨dot :: (s.data.reverse.takeWhile (· ≠ '.')).reverse⟩
    else ""

/-- Python's `int()` applied to a rational: truncation toward zero.
Since the denominator of a `Rat` is positive, truncating division of the
numerator by the denominator is exactly truncation toward zero. -/
def pyInt (q : Rat) : Int := q.num.tdiv q.den

/-! ## Data model -/

/-- A normalized chapter as produced by the metadata extractors: times in
seconds (Python floats modelled as rationals), title text.  The script keeps
chapters as dicts and applies the defaults `0`, `0`, `"Chapter"` with
`.get` at serialization time; the struct carries the values with those
defaults already resolved. -/
structure Chapter where
  start_time : Rat
  end_time : Rat
  title : String
deriving DecidableEq

/-- A raw chapter record as returned by ffprobe introspection: times in
seconds, title possibly absent from the tags dict. -/
structure FfRawChapter where
  start_time : Rat
  end_time : Rat
  title : Option String
deriving DecidableEq

/-- A chapter as embedded in a completed transcription job: the service
reports integer millisecond times and a headline.  (`end` is a Lean keyword,
hence `end_`.) -/
structure AaiChapter where
  start : Int
  end_ : Int
  headline : String
deriving DecidableEq

/-- Status of a remote transcription job.  The Python SDK's status enum is a
string enum, so comparisons against `aai.TranscriptStatus.completed` and
against the literals "completed" / "error" agree; one Lean enum models
both. -/
inductive TStatus where
  | queued
  | processing
  | completed
  | error
deriving DecidableEq

/-- A remote transcription job as observed by the script. -/
structure Transcript where
  id : String
  status : TStatus
  error_detail : String := ""
  chapters : List AaiChapter := []
deriving DecidableEq

/-- The external collaborators of the orchestrator, supplied as oracles:
`getById` models `aai.Transcript.get_by_id` (`Except.error` is a raised
exception), `submitResult` the job returned by `transcriber.submit`, `wait`
the terminal transcript returned by `wait_for_completion` on the job with
the given id, and `ffmpegOk` whether the audio-extraction subprocess exits
zero. -/
structure Oracle where
  getById : String → Except String Transcript
  submitResult : Transcript
  wait : String → Transcript
  ffmpegOk : Bool

/-- Observable actions of a run, in the order they are performed. -/
inductive Event where
  | fetchStatus (id : String)
  | extractAudio (audioPath : String)
  | submitJob (audioPath : String)
  | writeToken (id : String)
  | waitJob (id : String)
deriving DecidableEq

/-! ## Chapter metadata serializer (`chapters_to_ffmetadata`, lines 132-155)

Each `f.write` of a text chunk ending in a newline is modelled as emitting
one line (the trailing `f.write` of a bare newline emits the empty line);
the file content is the lines joined with newlines. -/

/-- The six lines written for one chapter by the loop body of
`chapters_to_ffmetadata`: seconds are scaled to integer milliseconds by
`int(t * 1000)`. -/
def writeChapterLines (c : Chapter) : List String :=
  ["[CHAPTER]",
   "TIMEBASE=1/1000",
   "START=" ++ toString (pyInt (c.start_time * 1000)),
   "END=" ++ toString (pyInt (c.end_time * 1000)),
   "title=" ++ c.title,
   ""]

/-- All lines written by `chapters_to_ffmetadata`: the header, then one
block per chapter in input order. -/
def ffmetadataLines (cs : List Chapter) : List String :=
  ";FFMETADATA1" :: cs.flatMap writeChapterLines

/-- Join lines into file content, each line followed by a newline. -/
def unlines (ls : List String) : String :=
  ls.foldl (fun acc l => acc ++ l ++ "\n") ""

/-- Model of `chapters_to_ffmetadata`: writes the serialized chapters to the
fixed file `FFMETADATA` in the output directory and returns that path. -/
def chapters_to_ffmetadata (fs : FS) (chapters : List Chapter)
    (output_dir : String) : FS × String :=
  let metadata_file := pathJoin output_dir "FFMETADATA"
  (fsWrite fs metadata_file (unlines (ffmetadataLines chapters)), metadata_file)

/-! ## Metadata extractor (`extract_chapters_from_*`, lines 58-178) -/

/-- Model of `extract_chapters_from_yt_dlp_json`: `raw = none` models a
failed yt-dlp invocation or unparsable JSON; an empty chapter list in the
JSON is also reported as `none` (the code returns `None` when the chapters
list is falsy). -/
def extract_chapters_from_yt_dlp_json (raw : Option (List Chapter)) :
    Option (List Chapter) :=
  match raw with
  | none => none
  | some cs => if cs.isEmpty then none else some cs

/-- Model of `extract_chapters_from_ffprobe`: a missing title tag defaults
to "Chapter"; a failed or chapterless probe yields `none`. -/
def extract_chapters_from_ffprobe (raw : Option (List FfRawChapter)) :
    Option (List Chapter) :=
  match raw with
  | none => none
  | some cs =>
    if cs.isEmpty then none
    else some (cs.map fun r => ⟨r.start_time, r.end_time, r.title.getD "Chapter"⟩)

/-- Model of `extract_chapters_from_source`: try the URL metadata first
(when a URL was given), fall back to container introspection (when a local
file is given), and if both yield nothing return `none` with a warning
(the `Bool` component records whether the warning was printed).  When
chapters were found, serialize them and return the metadata file path. -/
def extract_chapters_from_source (fs : FS) (video_url : Option String)
    (video_file : Option String) (ytRaw : Option (List Chapter))
    (ffRaw : Option (List FfRawChapter)) (output_dir : String) :
    FS × Option String × Bool :=
  let chapters : Option (List Chapter) :=
    match video_url with
    | some _ => extract_chapters_from_yt_dlp_json ytRaw
    | none => none
  let chapters : Option (List Chapter) :=
    match chapters with
    | none =>
      match video_file with
      | some _ => extract_chapters_from_ffprobe ffRaw
      | none => none
    | some cs => some cs
  match chapters with
  | none => (fs, none, true)
  | some cs =>
    let r := chapters_to_ffmetadata fs cs output_dir
    (r.1, some r.2, false)

/-! ## Muxer invocation (`add_chapters_to_video`, lines 318-352) -/

/-- Model of `add_chapters_to_video`: default output path is
`<base> - with chapters<ext>` in the output directory; a non-zero ffmpeg
exit (`muxOk = false`) aborts with exit code 1. -/
def add_chapters_to_video (input_video : String)
    (output_video : Option String) (output_dir : String) (muxOk : Bool) :
    Except Nat String :=
  let out : String :=
    match output_video with
    | some o => o
    | none =>
      let bn := basename input_video
      pathJoin output_dir (splitextStem bn ++ " - with chapters" ++ splitextExt bn)
  if muxOk then Except.ok out else Except.error 1

/-- Model of the tail of `main` (lines 443-465) in source-metadata mode
(`--skip-ai-chapters`): run the extractor, then either mux or pass the
input through unchanged.  Returns the final filesystem, the resulting
output video path, the process exit code, and whether the "no chapters"
warning was printed. -/
def main_source_mode (fs : FS) (video_url : Option String)
    (video_file : String) (ytRaw : Option (List Chapter))
    (ffRaw : Option (List FfRawChapter)) (output_arg : Option String)
    (output_dir : String) (muxOk : Bool) : FS × String × Nat × Bool :=
  let r := extract_chapters_from_source fs video_url (some video_file) ytRaw ffRaw output_dir
  match r.2.1 with
  | some _ =>
    match add_chapters_to_video video_file output_arg output_dir muxOk with
    | Except.ok out => (r.1, out, 0, r.2.2)
    | Except.error n => (r.1, video_file, n, r.2.2)
  | none => (r.1, video_file, 0, r.2.2)

/-! ## Audio preparation (`extract_audio`, lines 181-214) -/

/-- Model of Python's `str.strip()`: drop whitespace from both ends. -/
def pyStrip (s : String) : String :=
  ⟨((s.data.dropWhile Char.isWhitespace).reverse.dropWhile Char.isWhitespace).reverse⟩

/-- The resume-token file path: `<stem>-transcript-id.txt` in the output
directory (line 220). -/
def tokenFilePath (video_file output_dir : String) : String :=
  pathJoin output_dir (splitextStem (basename video_file) ++ "-transcript-id.txt")

/-- The audio artifact path: `<stem>-audio.m4a` in the output directory
(line 184). -/
def audioFilePath (video_file output_dir : String) : String :=
  pathJoin output_dir (splitextStem (basename video_file) ++ "-audio.m4a")

/-- Stand-in content for the bytes ffmpeg writes into the audio artifact;
the pipeline only ever tests the artifact's existence, never reads it. -/
def audioBlob : String := "(audio data)"

/-- Model of `extract_audio`: reuse the artifact if it already exists,
otherwise run ffmpeg (recorded as an `Event.extractAudio`), aborting with
exit code 1 when it fails. -/
def extract_audio (fs : FS) (o : Oracle) (video_file output_dir : String) :
    List Event × Except Nat (FS × String) :=
  let audio_file := audioFilePath video_file output_dir
  if fsExists fs audio_file then ([], Except.ok (fs, audio_file))
  else ([Event.extractAudio audio_file],
        if o.ffmpegOk then Except.ok (fsWrite fs audio_file audioBlob, audio_file)
        else Except.error 1)

/-! ## Transcription orchestrator (`transcribe_and_generate_chapters`,
lines 217-315) -/

/-- The six lines written for one chapter on the AI path (lines 294-300):
the service already reports integer milliseconds, written verbatim. -/
def aiChapterBlockLines (c : AaiChapter) : List String :=
  ["[CHAPTER]",
   "TIMEBASE=1/1000",
   "START=" ++ toString c.start,
   "END=" ++ toString c.end_,
   "title=" ++ c.headline,
   ""]

/-- File content written for a completed job's chapters (lines 291-300). -/
def aiFFMetadata (cs : List AaiChapter) : String :=
  unlines (";FFMETADATA1" :: cs.flatMap aiChapterBlockLines)

/-- Model of lines 271-315 of `transcribe_and_generate_chapters`, the part
after a transcript with a terminal (or still-pending) status is in hand:
abort with exit 1 on `error` (and on any other non-completed status),
otherwise write the metadata file, then delete the resume-token file and
the audio artifact if they exist. -/
def transcribeFinalize (fs : FS) (t : Transcript)
    (video_file output_dir : String) (evs : List Event) :
    List Event × FS × Except Nat String :=
  if t.status = TStatus.error then (evs, fs, Except.error 1)
  else if t.status ≠ TStatus.completed then (evs, fs, Except.error 1)
  else
    let metadata_file := pathJoin output_dir "FFMETADATA"
    let fs1 := fsWrite fs metadata_file (aiFFMetadata t.chapters)
    let tokenF := tokenFilePath video_file output_dir
    let fs2 := if fsExists fs1 tokenF then fsRemove fs1 tokenF else fs1
    let audioF := audioFilePath video_file output_dir
    let fs3 := if fsExists fs2 audioF then fsRemove fs2 audioF else fs2
    (evs, fs3, Except.ok metadata_file)

/-- Model of `transcribe_and_generate_chapters`.  The resume block
(lines 223-246) reads the token file, strips it, and fetches the remote
status: a completed job is kept, an errored or unfetchable job clears the
in-memory id (the file is left alone), a pending job is waited on.  When no
usable id remains (lines 249-269), audio is prepared, a new job submitted,
its id written to the token file, and only then is the job waited on.
Either way control reaches `transcribeFinalize`. -/
def transcribe_run (fs0 : FS) (o : Oracle) (video_file output_dir : String) :
    List Event × FS × Except Nat String :=
  let tokenF := tokenFilePath video_file output_dir
  let resume : Option Transcript × List Event :=
    match fsLookup fs0 tokenF with
    | none => (none, [])
    | some content =>
      let tid := pyStrip content
      match o.getById tid with
      | Except.error _ => (none, [Event.fetchStatus tid])
      | Except.ok t =>
        if t.status = TStatus.completed then (some t, [Event.fetchStatus tid])
        else if t.status = TStatus.error then (none, [Event.fetchStatus tid])
        else (some (o.wait tid), [Event.fetchStatus tid, Event.waitJob tid])
  match resume with
  | (some t, evs) => transcribeFinalize fs0 t video_file output_dir evs
  | (none, evs) =>
    let ea := extract_audio fs0 o video_file output_dir
    match ea.2 with
    | Except.error n => (evs ++ ea.1, fs0, Except.error n)
    | Except.ok (fs1, audio_file) =>
      let t := o.submitResult
      let fs2 := fsWrite fs1 tokenF t.id
      let t2 := o.wait t.id
      transcribeFinalize fs2 t2 video_file output_dir
        (evs ++ ea.1 ++
          [Event.submitJob audio_file, Event.writeToken t.id, Event.waitJob t.id])

/-! ## Concrete fixtures used by witnesses and the counterexample -/

/-- A filesystem holding a resume-token file for `vid.mp4` with job id
`job1`. -/
def fsC1 : FS := [("out/vid-transcript-id.txt", "job1")]

/-- Oracle for the C1 scenario: the recorded job is still processing at the
resume check, and waiting on it ends in error status. -/
def oC1 : Oracle where
  getById := fun i =>
    if i = "job1" then Except.ok ⟨"job1", TStatus.processing, "", []⟩
    else Except.error "not found"
  submitResult := ⟨"newjob", TStatus.queued, "", []⟩
  wait := fun _ => ⟨"job1", TStatus.error, "Audio file has no audio", []⟩
  ffmpegOk := true

/-- Oracle for a plain fresh run that ends in a completed job. -/
def oW2 : Oracle where
  getById := fun _ => Except.error "not found"
  submitResult := ⟨"new2", TStatus.queued, "", []⟩
  wait := fun _ => ⟨"new2", TStatus.completed, "", [⟨0, 30000, "A"⟩]⟩
  ffmpegOk := true

def fsW3 : FS := [("out/vid-transcript-id.txt", "done3")]

/-- Oracle for the resume-of-completed-job scenario. -/
def oW3 : Oracle where
  getById := fun i =>
    if i = "done3" then Except.ok ⟨"done3", TStatus.completed, "", [⟨0, 30000, "A"⟩]⟩
    else Except.error "not found"
  submitResult := ⟨"new3", TStatus.queued, "", []⟩
  wait := fun i => ⟨i, TStatus.completed, "", []⟩
  ffmpegOk := true

def fsW4 : FS := [("out/vid-transcript-id.txt", "bad4")]

/-- Oracle for the resume-of-errored-job scenario. -/
def oW4 : Oracle where
  getById := fun i =>
    if i = "bad4" then Except.ok ⟨"bad4", TStatus.error, "boom", []⟩
    else Except.error "not found"
  submitResult := ⟨"new4", TStatus.queued, "", []⟩
  wait := fun i => ⟨i, TStatus.completed, "", []⟩
  ffmpegOk := true

def fsW5 : FS := [("out/vid-transcript-id.txt", "gone5")]

/-- Oracle for the unreachable-status-check scenario. -/
def oW5 : Oracle where
  getById := fun _ => Except.error "connection refused"
  submitResult := ⟨"new5", TStatus.queued, "", []⟩
  wait := fun i => ⟨i, TStatus.completed, "", []⟩
  ffmpegOk := true

/-- A filesystem already holding the audio artifact for `vid.mp4`. -/
def fsW6 : FS := [("out/vid-audio.m4a", audioBlob)]

def oW6 : Oracle where
  getById := fun _ => Except.error "not found"
  submitResult := ⟨"new6", TStatus.queued, "", []⟩
  wait := fun i => ⟨i, TStatus.completed, "", []⟩
  ffmpegOk := true

/-- Two concrete chapters for exercising the serializer shape. -/
def csW8 : List Chapter := [⟨0, 30, "A"⟩, ⟨30, 90, "B"⟩]

def fsW9 : FS := [("keep", "me")]

def oW10 : Oracle where
  getById := fun _ => Except.error "not found"
  submitResult := ⟨"new10", TStatus.queued, "", []⟩
  wait := fun i => ⟨i, TStatus.completed, "", []⟩
  ffmpegOk := true

/-! ## Filesystem lemmas -/

theorem fsLookup_write_self (fs : FS) (p c : String) :
    fsLookup (fsWrite fs p c) p = some c := by
  simp [fsWrite, fsLookup]

theorem fsLookup_write_ne (fs : FS) (p q c : String) (h : p ≠ q) :
    fsLookup (fsWrite fs p c) q = fsLookup fs q := by
  simp [fsWrite, fsLookup, h]

theorem fsLookup_remove_ne (fs : FS) (p q : String) (h : p ≠ q) :
    fsLookup (fsRemove fs p) q = fsLookup fs q := by
  induction fs with
  | nil => rfl
  | cons e rest ih =>
    obtain ⟨r, c⟩ := e
    by_cases hr : r = p
    · subst hr
      simp [fsRemove, fsLookup, h, ih]
    · by_cases hq : r = q
      · subst hq
        simp [fsRemove, fsLookup, hr]
      · simp [fsRemove, fsLookup, hr, hq, ih]

theorem fsLookup_condRemove (fs : FS) (p q : String) (h : p ≠ q) :
    fsLookup (if fsExists fs p then fsRemove fs p else fs) q = fsLookup fs q := by
  split
  · exact fsLookup_remove_ne fs p q h
  · rfl

/-! ## Path lemmas -/

theorem string_append_left_cancel (a b c : String) (h : a ++ b = a ++ c) :
    b = c := by
  have h2 : a.data ++ b.data = a.data ++ c.data := congrArg String.data h
  have h3 : b.data = c.data := List.append_cancel_left h2
  exact congrArg String.mk h3

theorem basename_no_slash (p : String) : ∀ c ∈ (basename p).data, c ≠ '/' := by
  intro c hc
  replace hc : c ∈ (p.data.reverse.takeWhile (· ≠ '/')).reverse := hc
  rw [List.mem_reverse] at hc
  have := List.mem_takeWhile_imp hc
  simpa using this

theorem splitextStem_subset (s : String) :
    ∀ c ∈ (splitextStem s).data, c ∈ s.data := by
  intro c hc
  unfold splitextStem at hc
  split at hc
  · exact hc
  · rename_i hd pre hdw
    split at hc
    · replace hc : c ∈ pre.reverse := hc
      rw [List.mem_reverse] at hc
      have hsub : List.Sublist (hd :: pre) s.data.reverse := by
        rw [← hdw]
        exact List.dropWhile_sublist _
      have hmem : c ∈ s.data.reverse := hsub.mem (List.mem_cons_of_mem _ hc)
      rwa [List.mem_reverse] at hmem
    · exact hc

theorem stem_no_slash (vf : String) :
    ∀ c ∈ (splitextStem (basename vf)).data, c ≠ '/' :=
  fun c hc => basename_no_slash vf c (splitextStem_subset (basename vf) c hc)

theorem startsSlash_append_false (a b : String)
    (ha : ∀ c ∈ a.data, c ≠ '/') (hb : startsSlash b = false) :
    startsSlash (a ++ b) = false := by
  have hd : (a ++ b).data = a.data ++ b.data := rfl
  unfold startsSlash at *
  rw [hd]
  cases hae : a.data with
  | nil => simpa using hb
  | cons c rest =>
    simp only [List.cons_append, List.head?]
    have hcne : c ≠ '/' := ha c (by rw [hae]; exact List.mem_cons_self c rest)
    simpa using hcne

theorem pathJoin_right_inj (od a b : String) (ha : startsSlash a = false)
    (hb : startsSlash b = false) (h : pathJoin od a = pathJoin od b) :
    a = b := by
  unfold pathJoin at h
  rw [ha, hb] at h
  simp only [Bool.false_eq_true, if_false] at h
  by_cases h1 : od = ""
  · simpa [h1] using h
  · by_cases h2 : endsSlash od
    · simp only [h1, h2, if_true, if_false] at h
      exact string_append_left_cancel _ _ _ h
    · simp only [h1, h2, Bool.false_eq_true, if_false] at h
      exact string_append_left_cancel _ _ _ h

theorem meta_ne_token (vf od : String) :
    pathJoin od "FFMETADATA" ≠ tokenFilePath vf od := by
  intro h
  unfold tokenFilePath at h
  have he : "FFMETADATA" = splitextStem (basename vf) ++ "-transcript-id.txt" :=
    pathJoin_right_inj od _ _ (by decide)
      (startsSlash_append_false _ _ (stem_no_slash vf) (by decide)) h
  have hl := congrArg String.length he
  rw [String.length_append] at hl
  rw [show "FFMETADATA".length = 10 by decide,
      show "-transcript-id.txt".length = 18 by decide] at hl
  omega

theorem meta_ne_audio (vf od : String) :
    pathJoin od "FFMETADATA" ≠ audioFilePath vf od := by
  intro h
  unfold audioFilePath at h
  have he : "FFMETADATA" = splitextStem (basename vf) ++ "-audio.m4a" :=
    pathJoin_right_inj od _ _ (by decide)
      (startsSlash_append_false _ _ (stem_no_slash vf) (by decide)) h
  have hl := congrArg String.length he
  rw [String.length_append] at hl
  rw [show "FFMETADATA".length = 10 by decide,
      show "-audio.m4a".length = 10 by decide] at hl
  have hz : (splitextStem (basename vf)).length = 0 := by omega
  have hdz : (splitextStem (basename vf)).data = [] := List.length_eq_zero.mp hz
  have hempty : splitextStem (basename vf) = "" := congrArg String.mk hdz
  rw [hempty] at he
  have hre : ("" : String) ++ "-audio.m4a" = "-audio.m4a" := rfl
  rw [hre] at he
  exact absurd he (by decide)

/-! ## Sanity checks for the path and numeric models -/

theorem pyInt_ofNat (n : Nat) : pyInt (OfNat.ofNat n) = OfNat.ofNat n := by
  rw [pyInt, Rat.num_ofNat, Rat.den_ofNat]
  simp

example : splitextStem (basename "a/b/vid.mp4") = "vid" := by decide
example : splitextStem ".bashrc" = ".bashrc" := by decide
example : splitextStem "a.b.c" = "a.b" := by decide
example : splitextExt "vid.mp4" = ".mp4" := by decide
example : pathJoin "out" "x.txt" = "out/x.txt" := by decide
example : pathJoin "out/" "x.txt" = "out/x.txt" := by decide
example : pathJoin "out" "/abs" = "/abs" := by decide
example : tokenFilePath "vid.mp4" "out" = "out/vid-transcript-id.txt" := by decide
example : audioFilePath "vid.mp4" "out" = "out/vid-audio.m4a" := by decide

/-! ## Orchestrator lemmas -/

theorem transcribeFinalize_events (fs : FS) (t : Transcript) (vf od : String)
    (evs : List Event) : (transcribeFinalize fs t vf od evs).1 = evs := by
  unfold transcribeFinalize
  split
  · rfl
  · split
    · rfl
    · rfl

theorem transcribeFinalize_error (fs : FS) (t : Transcript) (vf od : String)
    (evs : List Event) (h : t.status = TStatus.error) :
    transcribeFinalize fs t vf od evs = (evs, fs, Except.error 1) := by
  simp [transcribeFinalize, h]

theorem transcribeFinalize_completed (fs : FS) (t : Transcript) (vf od : String)
    (evs : List Event) (h : t.status = TStatus.completed) :
    (transcribeFinalize fs t vf od evs).2.2 =
        Except.ok (pathJoin od "FFMETADATA") ∧
      fsLookup (transcribeFinalize fs t vf od evs).2.1 (pathJoin od "FFMETADATA") =
        some (aiFFMetadata t.chapters) := by
  unfold transcribeFinalize
  rw [h]
  simp only [reduceCtorEq, if_false, ne_eq, not_true_eq_false]
  constructor
  · trivial
  · show fsLookup _ (pathJoin od "FFMETADATA") = _
    rw [fsLookup_condRemove _ _ _ (fun he => meta_ne_audio vf od he.symm),
        fsLookup_condRemove _ _ _ (fun he => meta_ne_token vf od he.symm),
        fsLookup_write_self]

theorem transcribeFinalize_ok_path (fs : FS) (t : Transcript) (vf od : String)
    (evs : List Event) (p : String)
    (h : (transcribeFinalize fs t vf od evs).2.2 = Except.ok p) :
    p = pathJoin od "FFMETADATA" := by
  unfold transcribeFinalize at h
  split at h
  · exact absurd h (by simp)
  · split at h
    · exact absurd h (by simp)
    · simp only [Except.ok.injEq] at h
      exact h.symm

/-! ## Serializer lemmas -/

theorem start_line_ne (s : String) : ("START=" ++ s) ≠ "[CHAPTER]" := by
  intro h
  have h3 : "START=".data ++ s.data = "[CHAPTER]".data := congrArg String.data h
  simp at h3

theorem end_line_ne (s : String) : ("END=" ++ s) ≠ "[CHAPTER]" := by
  intro h
  have h3 : "END=".data ++ s.data = "[CHAPTER]".data := congrArg String.data h
  simp at h3

theorem title_line_ne (s : String) : ("title=" ++ s) ≠ "[CHAPTER]" := by
  intro h
  have h3 : "title=".data ++ s.data = "[CHAPTER]".data := congrArg String.data h
  simp at h3

theorem count_writeChapterLines (c : Chapter) :
    (writeChapterLines c).count "[CHAPTER]" = 1 := by
  simp [writeChapterLines, List.count_cons, start_line_ne, end_line_ne,
    title_line_ne]

theorem count_flatMap_writeChapterLines (cs : List Chapter) :
    (cs.flatMap writeChapterLines).count "[CHAPTER]" = cs.length := by
  induction cs with
  | nil => rfl
  | cons c rest ih =>
    simp only [List.flatMap_cons, List.count_append, count_writeChapterLines, ih,
      List.length_cons]
    omega

theorem flatMap_block_at (cs : List Chapter) :
    ∀ i (h : i < cs.length),
      ((cs.flatMap writeChapterLines).drop (6 * i)).take 6 =
        writeChapterLines (cs.get ⟨i, h⟩) := by
  induction cs with
  | nil =>
    intro i h
    exact absurd h (by simp)
  | cons c rest ih =>
    intro i h
    cases i with
    | zero =>
      simp only [Nat.mul_zero, List.drop_zero, List.flatMap_cons]
      rw [show (6 : Nat) = (writeChapterLines c).length from rfl]
      exact List.take_left _ _
    | succ j =>
      have hj : j < rest.length := by simpa using h
      have hmul : 6 * (j + 1) = 6 + 6 * j := by ring
      simp only [List.flatMap_cons, hmul]
      rw [← List.drop_drop]
      have hdl : List.drop 6 (writeChapterLines c ++ rest.flatMap writeChapterLines) =
          rest.flatMap writeChapterLines := by
        rw [show (6 : Nat) = (writeChapterLines c).length from rfl]
        exact List.drop_left _ _
      rw [hdl]
      exact ih j hj

/-! ## Claims C7 and C8: the chapter metadata serializer -/

/-- C7: the serializer converts chapter times from seconds to integer
milliseconds under TIMEBASE=1/1000: a chapter with start_time 1.5,
end_time 4.25 and title "Intro" produces the lines START=1500, END=4250 and
title=Intro in its [CHAPTER] block. -/
theorem C7_serializer_ms_normalization :
    ffmetadataLines [⟨1.5, 4.25, "Intro"⟩] =
      [";FFMETADATA1", "[CHAPTER]", "TIMEBASE=1/1000",
       "START=1500", "END=4250", "title=Intro", ""] := by
  have e1 : pyInt ((1.5 : Rat) * 1000) = 1500 := by
    rw [show ((1.5 : Rat)) * 1000 = 1500 by norm_num]
    exact pyInt_ofNat 1500
  have e2 : pyInt ((4.25 : Rat) * 1000) = 4250 := by
    rw [show ((4.25 : Rat)) * 1000 = 4250 by norm_num]
    exact pyInt_ofNat 4250
  simp only [ffmetadataLines, writeChapterLines, List.flatMap_cons,
    List.flatMap_nil, List.append_nil, e1, e2]
  rfl

/-- C8: for every chapter sequence of length N the serializer's output
begins with the ;FFMETADATA1 header, contains exactly N [CHAPTER] blocks in
input order (the block of chapter i occupies the six lines starting at
position 1 + 6i), and each block is terminated by a blank line. -/
theorem C8_serializer_block_structure (cs : List Chapter) :
    (ffmetadataLines cs).head? = some ";FFMETADATA1" ∧
    (ffmetadataLines cs).count "[CHAPTER]" = cs.length ∧
    (∀ i (h : i < cs.length),
      ((ffmetadataLines cs).drop (1 + 6 * i)).take 6 =
        writeChapterLines (cs.get ⟨i, h⟩)) ∧
    ∀ c : Chapter, (writeChapterLines c).getLast? = some "" := by
  refine ⟨rfl, ?_, ?_, fun c => rfl⟩
  · show (";FFMETADATA1" :: cs.flatMap writeChapterLines).count "[CHAPTER]" =
      cs.length
    rw [List.count_cons]
    simp [count_flatMap_writeChapterLines]
  · intro i h
    show ((";FFMETADATA1" :: cs.flatMap writeChapterLines).drop (1 + 6 * i)).take 6 = _
    rw [Nat.add_comm 1 (6 * i), List.drop_succ_cons]
    exact flatMap_block_at cs i h

/-- Witness for C8 at the concrete two-chapter sequence `csW8`: the block
of the second chapter sits right after the first one. -/
theorem C8_witness :
    ((ffmetadataLines csW8).drop (1 + 6 * 1)).take 6 =
      writeChapterLines (csW8.get ⟨1, by decide⟩) :=
  (C8_serializer_block_structure csW8).2.2.1 1 (by decide)

/-! ## Claim C1: what happens when the remote job reaches error status -/

/-- C1 counterexample: at a concrete input where the resumed job's wait ends
in error status, the run exits with code 1 while the resume-token file is
still present in the final filesystem — the token file is NOT deleted
before the process exits, contrary to the claim. -/
theorem C1_token_survives_error_exit :
    (transcribe_run fsC1 oC1 "vid.mp4" "out").2.2 = Except.error 1 ∧
    fsLookup (transcribe_run fsC1 oC1 "vid.mp4" "out").2.1
      (tokenFilePath "vid.mp4" "out") = some "job1" :=
  ⟨rfl, rfl⟩

/-- C1 (amended): when the waited-on transcription job reaches error status,
the run aborts fatally (exit code 1), the filesystem is left untouched, and
in particular the resume-token file is left on disk with its old content;
recovery to a fresh submission happens only on the next invocation, which
sees the error status and discards the stale token. -/
theorem C1_amended_error_abort_keeps_token (fs : FS) (o : Oracle)
    (vf od content : String) (t : Transcript)
    (htok : fsLookup fs (tokenFilePath vf od) = some content)
    (hget : o.getById (pyStrip content) = Except.ok t)
    (hpend : t.status = TStatus.queued ∨ t.status = TStatus.processing)
    (hwait : (o.wait (pyStrip content)).status = TStatus.error) :
    transcribe_run fs o vf od =
      ([Event.fetchStatus (pyStrip content), Event.waitJob (pyStrip content)],
        fs, Except.error 1) ∧
    fsLookup (transcribe_run fs o vf od).2.1 (tokenFilePath vf od) =
      some content := by
  have h1 : t.status ≠ TStatus.completed := by
    rcases hpend with h | h <;> simp [h]
  have h2 : t.status ≠ TStatus.error := by
    rcases hpend with h | h <;> simp [h]
  have hfin := transcribeFinalize_error fs (o.wait (pyStrip content)) vf od
    [Event.fetchStatus (pyStrip content), Event.waitJob (pyStrip content)] hwait
  have hrun : transcribe_run fs o vf od =
      ([Event.fetchStatus (pyStrip content), Event.waitJob (pyStrip content)],
        fs, Except.error 1) := by
    simp [transcribe_run, htok, hget, h1, h2, hfin]
  exact ⟨hrun, by rw [hrun]; exact htok⟩

/-- Witness for the amended C1 at the concrete fixture. -/
theorem C1_amended_witness :
    transcribe_run fsC1 oC1 "vid.mp4" "out" =
      ([Event.fetchStatus (pyStrip "job1"), Event.waitJob (pyStrip "job1")],
        fsC1, Except.error 1) ∧
    fsLookup (transcribe_run fsC1 oC1 "vid.mp4" "out").2.1
      (tokenFilePath "vid.mp4" "out") = some "job1" :=
  C1_amended_error_abort_keeps_token fsC1 oC1 "vid.mp4" "out" "job1"
    ⟨"job1", TStatus.processing, "", []⟩ rfl rfl (Or.inr rfl) rfl

/-! ## Claim C2: ordering of a fresh submission -/

/-- C2: on a fresh submission (no resume-token file; audio artifact not yet
cached; ffmpeg succeeds) the run performs exactly, in this order: audio
extraction, job submission, synchronous write of the returned job id to the
resume-token file, and only then the blocking wait. -/
theorem C2_fresh_submission_order (fs : FS) (o : Oracle) (vf od : String)
    (htok : fsLookup fs (tokenFilePath vf od) = none)
    (haud : fsLookup fs (audioFilePath vf od) = none)
    (hff : o.ffmpegOk = true) :
    (transcribe_run fs o vf od).1 =
      [Event.extractAudio (audioFilePath vf od),
       Event.submitJob (audioFilePath vf od),
       Event.writeToken o.submitResult.id,
       Event.waitJob o.submitResult.id] := by
  have hex : fsExists fs (audioFilePath vf od) = false := by
    simp [fsExists, haud]
  simp [transcribe_run, htok, extract_audio, hex, hff, transcribeFinalize_events]

/-- Witness for C2 on an empty filesystem. -/
theorem C2_witness :
    (transcribe_run [] oW2 "vid.mp4" "out").1 =
      [Event.extractAudio (audioFilePath "vid.mp4" "out"),
       Event.submitJob (audioFilePath "vid.mp4" "out"),
       Event.writeToken oW2.submitResult.id,
       Event.waitJob oW2.submitResult.id] :=
  C2_fresh_submission_order [] oW2 "vid.mp4" "out" rfl rfl rfl

/-! ## Claim C3: resuming a completed job -/

/-- C3: when a resume-token file exists and the remote status fetch reports
the job completed, the run performs no audio extraction and no submission
(its only action is the status fetch) and proceeds directly to emitting the
existing job's chapters into the metadata file. -/
theorem C3_resume_completed_no_resubmit (fs : FS) (o : Oracle)
    (vf od content : String) (t : Transcript)
    (htok : fsLookup fs (tokenFilePath vf od) = some content)
    (hget : o.getById (pyStrip content) = Except.ok t)
    (hst : t.status = TStatus.completed) :
    (transcribe_run fs o vf od).1 = [Event.fetchStatus (pyStrip content)] ∧
    (transcribe_run fs o vf od).2.2 = Except.ok (pathJoin od "FFMETADATA") ∧
    fsLookup (transcribe_run fs o vf od).2.1 (pathJoin od "FFMETADATA") =
      some (aiFFMetadata t.chapters) := by
  have hrun : transcribe_run fs o vf od =
      transcribeFinalize fs t vf od [Event.fetchStatus (pyStrip content)] := by
    simp [transcribe_run, htok, hget, hst]
  refine ⟨?_, ?_, ?_⟩
  · rw [hrun]
    exact transcribeFinalize_events _ _ _ _ _
  · rw [hrun]
    exact (transcribeFinalize_completed _ _ _ _ _ hst).1
  · rw [hrun]
    exact (transcribeFinalize_completed _ _ _ _ _ hst).2

/-- Witness for C3 at the concrete fixture. -/
theorem C3_witness :
    (transcribe_run fsW3 oW3 "vid.mp4" "out").1 =
      [Event.fetchStatus (pyStrip "done3")] ∧
    (transcribe_run fsW3 oW3 "vid.mp4" "out").2.2 =
      Except.ok (pathJoin "out" "FFMETADATA") ∧
    fsLookup (transcribe_run fsW3 oW3 "vid.mp4" "out").2.1
      (pathJoin "out" "FFMETADATA") =
      some (aiFFMetadata [⟨0, 30000, "A"⟩]) :=
  C3_resume_completed_no_resubmit fsW3 oW3 "vid.mp4" "out" "done3"
    ⟨"done3", TStatus.completed, "", [⟨0, 30000, "A"⟩]⟩ rfl rfl rfl

/-! ## Claim C4: resuming an errored job -/

/-- C4: when the resume-token file references a job whose remote status is
error, the run discards the token and performs a fresh submission: audio
preparation, a new job, the new id persisted, then the wait. -/
theorem C4_resume_error_fresh_submission (fs : FS) (o : Oracle)
    (vf od content : String) (t : Transcript)
    (htok : fsLookup fs (tokenFilePath vf od) = some content)
    (hget : o.getById (pyStrip content) = Except.ok t)
    (hst : t.status = TStatus.error)
    (haud : fsLookup fs (audioFilePath vf od) = none)
    (hff : o.ffmpegOk = true) :
    (transcribe_run fs o vf od).1 =
      [Event.fetchStatus (pyStrip content),
       Event.extractAudio (audioFilePath vf od),
       Event.submitJob (audioFilePath vf od),
       Event.writeToken o.submitResult.id,
       Event.waitJob o.submitResult.id] := by
  have hex : fsExists fs (audioFilePath vf od) = false := by
    simp [fsExists, haud]
  simp [transcribe_run, htok, hget, hst, extract_audio, hex, hff,
    transcribeFinalize_events]

/-- Witness for C4 at the concrete fixture. -/
theorem C4_witness :
    (transcribe_run fsW4 oW4 "vid.mp4" "out").1 =
      [Event.fetchStatus (pyStrip "bad4"),
       Event.extractAudio (audioFilePath "vid.mp4" "out"),
       Event.submitJob (audioFilePath "vid.mp4" "out"),
       Event.writeToken oW4.submitResult.id,
       Event.waitJob oW4.submitResult.id] :=
  C4_resume_error_fresh_submission fsW4 oW4 "vid.mp4" "out" "bad4"
    ⟨"bad4", TStatus.error, "boom", []⟩ rfl rfl rfl rfl rfl

/-! ## Claim C5: status fetch failure is not propagated -/

/-- C5: when the remote status fetch for an existing resume token raises,
the run does not propagate the failure: it proceeds exactly as a fresh
submission (audio preparation, new job, new id persisted, wait). -/
theorem C5_fetch_failure_fresh_submission (fs : FS) (o : Oracle)
    (vf od content msg : String)
    (htok : fsLookup fs (tokenFilePath vf od) = some content)
    (hget : o.getById (pyStrip content) = Except.error msg)
    (haud : fsLookup fs (audioFilePath vf od) = none)
    (hff : o.ffmpegOk = true) :
    (transcribe_run fs o vf od).1 =
      [Event.fetchStatus (pyStrip content),
       Event.extractAudio (audioFilePath vf od),
       Event.submitJob (audioFilePath vf od),
       Event.writeToken o.submitResult.id,
       Event.waitJob o.submitResult.id] := by
  have hex : fsExists fs (audioFilePath vf od) = false := by
    simp [fsExists, haud]
  simp [transcribe_run, htok, hget, extract_audio, hex, hff,
    transcribeFinalize_events]

/-- Witness for C5 at the concrete fixture. -/
theorem C5_witness :
    (transcribe_run fsW5 oW5 "vid.mp4" "out").1 =
      [Event.fetchStatus (pyStrip "gone5"),
       Event.extractAudio (audioFilePath "vid.mp4" "out"),
       Event.submitJob (audioFilePath "vid.mp4" "out"),
       Event.writeToken oW5.submitResult.id,
       Event.waitJob oW5.submitResult.id] :=
  C5_fetch_failure_fresh_submission fsW5 oW5 "vid.mp4" "out" "gone5"
    "connection refused" rfl rfl rfl rfl

/-! ## Claim C6: audio preparation is idempotent -/

/-- C6: if the target audio artifact already exists the function returns
that path unchanged without invoking extraction, and invoking it twice on
the same input yields the same path with no extraction the second time. -/
theorem C6_extract_audio_idempotent (fs : FS) (o : Oracle) (vf od : String) :
    (fsExists fs (audioFilePath vf od) = true →
      extract_audio fs o vf od = ([], Except.ok (fs, audioFilePath vf od))) ∧
    ∀ evs fs2 p, extract_audio fs o vf od = (evs, Except.ok (fs2, p)) →
      extract_audio fs2 o vf od = ([], Except.ok (fs2, p)) := by
  constructor
  · intro h
    simp [extract_audio, h]
  · intro evs fs2 p h
    by_cases hex : fsExists fs (audioFilePath vf od) = true
    · simp only [extract_audio, hex, if_true] at h
      obtain ⟨h1, h2⟩ := Prod.mk.injEq _ _ _ _ ▸ h
      obtain ⟨h3, h4⟩ := Prod.mk.injEq _ _ _ _ ▸ Except.ok.injEq _ _ ▸ h2
      subst h3 h4
      simp [extract_audio, hex]
    · rw [Bool.not_eq_true] at hex
      by_cases hff : o.ffmpegOk = true
      · simp only [extract_audio, hex, hff, Bool.false_eq_true, if_false,
          if_true] at h
        obtain ⟨h1, h2⟩ := Prod.mk.injEq _ _ _ _ ▸ h
        obtain ⟨h3, h4⟩ := Prod.mk.injEq _ _ _ _ ▸ Except.ok.injEq _ _ ▸ h2
        subst h3 h4
        have hex2 : fsExists (fsWrite fs (audioFilePath vf od) audioBlob)
            (audioFilePath vf od) = true := by
          simp [fsExists, fsLookup_write_self]
        simp [extract_audio, hex2]
      · rw [Bool.not_eq_true] at hff
        simp [extract_audio, hex, hff] at h

/-- Witness for C6: with the artifact already on disk, extraction is
skipped and the cached path is returned. -/
theorem C6_witness :
    extract_audio fsW6 oW6 "vid.mp4" "out" =
      ([], Except.ok (fsW6, audioFilePath "vid.mp4" "out")) :=
  (C6_extract_audio_idempotent fsW6 oW6 "vid.mp4" "out").1 rfl

/-! ## Claim C9: the no-chapters path is a soft success -/

/-- C9: in source-metadata mode, when both the URL-metadata query and the
container introspection yield no chapters, no metadata file is created (the
filesystem is returned unchanged), the warning is emitted, the final output
path equals the original input path, and the exit code is 0. -/
theorem C9_no_chapters_soft_success (fs : FS) (video_url : Option String)
    (vf : String) (ytRaw : Option (List Chapter))
    (ffRaw : Option (List FfRawChapter)) (outArg : Option String)
    (od : String) (muxOk : Bool)
    (hy : extract_chapters_from_yt_dlp_json ytRaw = none)
    (hf : extract_chapters_from_ffprobe ffRaw = none) :
    main_source_mode fs video_url vf ytRaw ffRaw outArg od muxOk =
      (fs, vf, 0, true) := by
  cases video_url <;>
    simp [main_source_mode, extract_chapters_from_source, hy, hf]

/-- Witness for C9: a URL whose metadata has an empty chapter list and a
file with no container chapters. -/
theorem C9_witness :
    main_source_mode fsW9 (some "url") "in.mp4" (some []) none none "out" true =
      (fsW9, "in.mp4", 0, true) :=
  C9_no_chapters_soft_success fsW9 (some "url") "in.mp4" (some []) none none
    "out" true rfl rfl

/-! ## Claim C10: both paths write the same fixed metadata path -/

/-- C10: the source-metadata serializer and the AI transcription path both
address the chapter-metadata file at the fixed path `FFMETADATA` inside the
output directory, independent of the input media's name, and a second
serialization into the same output directory overwrites the first. -/
theorem C10_fixed_metadata_path :
    (∀ (fs : FS) (cs : List Chapter) (od : String),
      (chapters_to_ffmetadata fs cs od).2 = pathJoin od "FFMETADATA") ∧
    (∀ (fs : FS) (o : Oracle) (vf od p : String),
      (transcribe_run fs o vf od).2.2 = Except.ok p →
        p = pathJoin od "FFMETADATA") ∧
    (∀ (fs : FS) (cs1 cs2 : List Chapter) (od : String),
      fsLookup (chapters_to_ffmetadata
          (chapters_to_ffmetadata fs cs1 od).1 cs2 od).1
          (pathJoin od "FFMETADATA") =
        some (unlines (ffmetadataLines cs2))) := by
  refine ⟨fun fs cs od => rfl, ?_, fun fs cs1 cs2 od => ?_⟩
  · intro fs o vf od p h
    simp only [transcribe_run] at h
    split at h
    · exact transcribeFinalize_ok_path _ _ _ _ _ _ h
    · split at h
      · exact absurd h (by simp)
      · exact transcribeFinalize_ok_path _ _ _ _ _ _ h
  · simp [chapters_to_ffmetadata, fsLookup_write_self]

/-- Witness for C10: a concrete successful AI run returns the fixed
metadata path. -/
theorem C10_witness : "out/FFMETADATA" = pathJoin "out" "FFMETADATA" :=
  C10_fixed_metadata_path.2.1 [] oW10 "vid.mp4" "out" "out/FFMETADATA" rfl

end Chapterize
